import Mathlib

/-!
Verification of the plinder lazy dataset materializer and configuration
resolver, as specified by the repository documentation (README download
instructions and `docs/examples/1_download.ipynb`).  The repository excerpt
contains no implementation sources for these components, so every
operational definition below is modelled from the specification text and is
marked as such in its doc comment.

Paths are modelled as lists of components, file contents as lists of bytes,
and a filesystem (local or remote) as a partial map from paths to contents.
-/

namespace Plinder

/-- A sequence of bytes (file contents). -/
abbrev Bytes := List Nat

/-- A filesystem path, as a list of components (no separators). -/
abbrev FSPath := List String

/-- A local filesystem: a partial map from paths to file contents.
`none` means the path holds no file. -/
abbrev FS := FSPath → Option Bytes

/-- A remote object store: a partial map from object keys to object bytes. -/
abbrev Remote := FSPath → Option Bytes

/-- Split a character list on slashes into raw components. -/
def splitSlashAux (cs : List Char) (acc : List Char) : List String :=
  match cs with
  | [] => [String.mk acc.reverse]
  | c :: rest =>
      if c = '/' then String.mk acc.reverse :: splitSlashAux rest []
      else splitSlashAux rest (c :: acc)

/-- Split a path string on slashes into its non-empty components,
so "/tmp/x" becomes ["tmp", "x"]. -/
def pathComponents (s : String) : FSPath :=
  (splitSlashAux s.toList []).filter (fun c => c ≠ "")

/-- Render a component list back to an absolute path string. -/
def renderPath (p : FSPath) : String :=
  "/" ++ String.intercalate "/" p

/-- Modelled from the spec: the immutable `Configuration` record produced by
ConfigResolver (spec section 3): local mount directory, remote bucket root,
release, iteration, offline flag. -/
structure Configuration where
  local_root : FSPath
  remote_root : FSPath
  release : String
  iteration : String
  offline : Bool
  deriving Repr, DecidableEq

/-- Errors of the materializer, per the spec error taxonomy (section 7).
`ConfigError` is separate, see `ConfigError` below. -/
inductive MatError where
  | invalidRequest (req : FSPath)
  | offlineMiss (req : FSPath)
  | remoteFetch (req : FSPath)
  deriving Repr, DecidableEq

/-- A successful materialization: the returned local path, and whether this
call performed a remote fetch (false on a cache hit). -/
structure MatOk where
  path : FSPath
  fetched : Bool
  deriving Repr, DecidableEq

/-- Modelled from the spec: an asset request "contains no traversal
components" (spec section 4.2 step 1); a traversal component is "..". -/
def traversalFree (req : FSPath) : Bool :=
  req.all (fun c => c ≠ "..")

/-- Modelled from the spec: the candidate local path
`local_root / release / iteration / request` (spec section 4.2 step 2). -/
def candidatePath (cfg : Configuration) (req : FSPath) : FSPath :=
  cfg.local_root ++ [cfg.release, cfg.iteration] ++ req

/-- Modelled from the spec: the remote object key
`remote_root/release/iteration/request` (spec section 4.2 step 4). -/
def remoteKey (cfg : Configuration) (req : FSPath) : FSPath :=
  cfg.remote_root ++ [cfg.release, cfg.iteration] ++ req

/-- Modelled from the spec: the cache-hit test "the candidate exists and is
non-empty" (spec section 4.2 step 3). -/
def isCacheHit (fs : FS) (p : FSPath) : Bool :=
  match fs p with
  | some v => !v.isEmpty
  | none => false

/-- Write contents `v` at path `p`, leaving every other path unchanged. -/
def setFile (fs : FS) (p : FSPath) (v : Bytes) : FS :=
  fun q => if q = p then some v else fs q

/-- Remove the file at path `p`, leaving every other path unchanged. -/
def removeFile (fs : FS) (p : FSPath) : FS :=
  fun q => if q = p then none else fs q

/-- Modelled from the spec: `materialize(request)` (spec section 4.2).
The remote store is a read-only input: no operation of the materializer
mutates it.  The result pairs the (possibly extended) local filesystem with
either an error or the materialized path.  The fetch in the miss branch is
the atomic end-to-end effect of the temp-file-and-rename protocol, whose
step-level states are modelled by `fetchStates` below. -/
def materialize (cfg : Configuration) (remote : Remote) (fs : FS)
    (req : FSPath) : FS × Except MatError MatOk :=
  if ¬ traversalFree req then
    (fs, Except.error (MatError.invalidRequest req))
  else
    let cand := candidatePath cfg req
    if isCacheHit fs cand then
      (fs, Except.ok ⟨cand, false⟩)
    else if cfg.offline then
      (fs, Except.error (MatError.offlineMiss req))
    else
      match remote (remoteKey cfg req) with
      | some b => (setFile fs cand b, Except.ok ⟨cand, true⟩)
      | none => (fs, Except.error (MatError.remoteFetch req))

/-- Modelled from the spec: the sequence of filesystem states visible while
fetching bytes `b` into candidate path `cand` through temporary file `tmp`
(spec section 4.2 step 4): the transfer appends to `tmp` byte by byte, and
the final step atomically renames `tmp` into place. -/
def fetchStates (fs : FS) (cand tmp : FSPath) (b : Bytes) : List FS :=
  ((List.range (b.length + 1)).map (fun k => setFile fs tmp (b.take k)))
    ++ [setFile (removeFile fs tmp) cand b]

/-- A process environment: a partial map from variable names to values. -/
abbrev Env := String → Option String

/-- Modelled from the spec: the default release, `2024-06`
(README: `export PLINDER_RELEASE=2024-06 # Current release`). -/
def defaultRelease : String := "2024-06"

/-- Modelled from the spec: the default iteration, `v2`
(README: `export PLINDER_ITERATION=v2 # Current iteration`). -/
def defaultIteration : String := "v2"

/-- Modelled from the spec: the default local root is the per-user data
directory `~/.local/share/plinder` (README download target), below the
given home directory. -/
def defaultLocalRoot (home : FSPath) : FSPath :=
  home ++ [".local", "share", "plinder"]

/-- Modelled from the spec: the remote bucket root `gs://plinder`
(README: `gs://plinder/<release>/<iteration>/...`). -/
def remoteBucket : FSPath := ["gs://plinder"]

/-- Modelled from the spec: `PLINDER_OFFLINE` is a boolean where "unset/empty
means online/lazy mode" (spec section 6); any other set value is truthy. -/
def envTruthy : Option String → Bool
  | none => false
  | some s => !s.isEmpty

/-- Modelled from the spec: ConfigResolver's pure resolution of the
environment plus built-in defaults into a `Configuration` (spec section 4.1
and section 6): `PLINDER_MOUNT` overrides the local root when set non-empty,
`PLINDER_RELEASE` and `PLINDER_ITERATION` default to the documented values,
`PLINDER_OFFLINE` is truthy-boolean.  `home` is the caller's home
directory. -/
def resolveConfig (home : FSPath) (env : Env) : Configuration :=
  { local_root :=
      match env "PLINDER_MOUNT" with
      | some m => if m.isEmpty then defaultLocalRoot home else pathComponents m
      | none => defaultLocalRoot home
    remote_root := remoteBucket
    release := (env "PLINDER_RELEASE").getD defaultRelease
    iteration := (env "PLINDER_ITERATION").getD defaultIteration
    offline := envTruthy (env "PLINDER_OFFLINE") }

/-- Modelled from the spec: ConfigResolver "fails with `ConfigError` only if
required directory creation fails" (spec section 4.1). -/
inductive ConfigError where
  | mkdirFailed (p : FSPath)
  deriving Repr, DecidableEq

/-- Modelled from the spec: `resolve() -> Configuration` (spec section 4.1):
resolve the environment, create the local root directory (success or failure
of that creation is the capability `mkdirOk`), and fail with `ConfigError`
exactly when that creation fails. -/
def resolve (home : FSPath) (env : Env) (mkdirOk : FSPath → Bool) :
    Except ConfigError Configuration :=
  let cfg := resolveConfig home env
  if mkdirOk cfg.local_root then Except.ok cfg
  else Except.error (ConfigError.mkdirFailed cfg.local_root)

deriving instance DecidableEq for Except

/-- Concrete fixture: the configuration of the spec's test scenario
(section 8): local_root `/tmp/x`, release `2024-06`, iteration `v2`,
offline=false. -/
def cfgX : Configuration :=
  { local_root := ["tmp", "x"], remote_root := remoteBucket,
    release := "2024-06", iteration := "v2", offline := false }

/-- Concrete fixture: the request `systems/abc/receptor.cif`. -/
def reqX : FSPath := ["systems", "abc", "receptor.cif"]

/-- Concrete fixture: the empty local filesystem. -/
def fsNone : FS := fun _ => none

/-- Concrete fixture: a remote store holding bytes `[1, 2, 3]` at the
scenario's object key and nothing else. -/
def remoteX : Remote :=
  fun k => if k = remoteKey cfgX reqX then some [1, 2, 3] else none

/-- Concrete fixture: a remote store holding an empty object at the
scenario's object key and nothing else. -/
def remoteEmptyObj : Remote :=
  fun k => if k = remoteKey cfgX reqX then some [] else none

/-- Concrete fixture: a local filesystem holding stale bytes `[9]` at the
scenario's candidate path. -/
def fsStaleX : FS :=
  fun p => if p = candidatePath cfgX reqX then some [9] else none

end Plinder

namespace Plinder

/-- Claim C4: a request containing the traversal component ".." always fails
with InvalidRequestError and the local filesystem is returned untouched; the
outcome is the same for every configuration, remote store and local
filesystem, so no location inside or outside local_root is read, created or
written. -/
theorem traversal_request_rejected (cfg : Configuration) (remote : Remote)
    (fs : FS) (req : FSPath) (h : ".." ∈ req) :
    materialize cfg remote fs req
      = (fs, Except.error (MatError.invalidRequest req)) := by
  have hall : traversalFree req = false := by
    rw [traversalFree, List.all_eq_false]
    exact ⟨"..", h, by simp⟩
  simp [materialize, hall]

/-- Claim C4 witness at the concrete request `systems/../secret`. -/
theorem traversal_request_rejected_witness :
    materialize cfgX remoteX fsNone ["systems", "..", "secret"]
      = (fsNone, Except.error (MatError.invalidRequest ["systems", "..", "secret"])) :=
  traversal_request_rejected cfgX remoteX fsNone ["systems", "..", "secret"]
    (by decide)

/-- Claim C3: in offline mode with the candidate file absent, materialize
fails with OfflineMissError naming the requested asset and leaves the
filesystem untouched; the conclusion holds for every remote store, so the
outcome depends on no remote fetch or existence check. -/
theorem offline_miss_no_network (cfg : Configuration) (fs : FS) (req : FSPath)
    (hv : traversalFree req = true) (hoff : cfg.offline = true)
    (habs : fs (candidatePath cfg req) = none) :
    ∀ remote : Remote,
      materialize cfg remote fs req
        = (fs, Except.error (MatError.offlineMiss req)) := by
  intro remote
  simp [materialize, hv, isCacheHit, habs, hoff]

/-- Claim C3 witness: the scenario configuration switched to offline, empty
local filesystem. -/
theorem offline_miss_no_network_witness :
    materialize { cfgX with offline := true } remoteX fsNone reqX
      = (fsNone, Except.error (MatError.offlineMiss reqX)) :=
  offline_miss_no_network { cfgX with offline := true } fsNone reqX
    (by decide) rfl rfl remoteX

/-- Claim C6: every successful materialization returns exactly the path
`local_root ++ [release, iteration] ++ request`. -/
theorem materialized_path_layout (cfg : Configuration) (remote : Remote)
    (fs : FS) (req : FSPath) (o : MatOk)
    (h : (materialize cfg remote fs req).2 = Except.ok o) :
    o.path = cfg.local_root ++ [cfg.release, cfg.iteration] ++ req := by
  by_cases hv : traversalFree req
  · by_cases hhit : isCacheHit fs (candidatePath cfg req)
    · simp [materialize, hv, hhit] at h
      simp [← h, candidatePath]
    · by_cases hoff : cfg.offline
      · simp [materialize, hv, hhit, hoff] at h
      · cases hrem : remote (remoteKey cfg req) with
        | some b =>
          simp [materialize, hv, hhit, hoff, hrem] at h
          simp [← h, candidatePath]
        | none =>
          simp [materialize, hv, hhit, hoff, hrem] at h
  · simp [materialize, hv] at h

/-- Claim C6 witness: the spec scenario local_root=/tmp/x, release=2024-06,
iteration=v2, request=systems/abc/receptor.cif yields the path
/tmp/x/2024-06/v2/systems/abc/receptor.cif. -/
theorem materialized_path_layout_witness :
    (MatOk.mk ["tmp", "x", "2024-06", "v2", "systems", "abc", "receptor.cif"] true).path
      = cfgX.local_root ++ [cfgX.release, cfgX.iteration] ++ reqX ∧
    renderPath ["tmp", "x", "2024-06", "v2", "systems", "abc", "receptor.cif"]
      = "/tmp/x/2024-06/v2/systems/abc/receptor.cif" :=
  ⟨materialized_path_layout cfgX remoteX fsNone reqX
    ⟨["tmp", "x", "2024-06", "v2", "systems", "abc", "receptor.cif"], true⟩
    (by decide), by decide⟩

/-- Claim C9: a materialize call writes at most the candidate path — every
other path is unchanged; it never deletes a file (every existing file still
holds contents afterwards); and it never mutates an existing non-empty file
(such a candidate is a cache hit and is returned as is).  The remote store
is a read-only input of `materialize`, so remote objects are unchanged by
construction. -/
theorem materialize_frame (cfg : Configuration) (remote : Remote) (fs : FS)
    (req : FSPath) :
    (∀ p, p ≠ candidatePath cfg req →
        (materialize cfg remote fs req).1 p = fs p) ∧
    (∀ p b, fs p = some b → ∃ c, (materialize cfg remote fs req).1 p = some c) ∧
    (∀ p b, fs p = some b → b ≠ [] →
        (materialize cfg remote fs req).1 p = some b) := by
  by_cases hv : traversalFree req
  · by_cases hhit : isCacheHit fs (candidatePath cfg req)
    · simp only [materialize, hv, hhit]
      exact ⟨fun p _ => rfl, fun p b hb => ⟨b, hb⟩, fun p b hb _ => hb⟩
    · by_cases hoff : cfg.offline
      · simp only [materialize, hv, hhit, hoff]
        simp only [not_true_eq_false, if_false, Bool.not_eq_true, if_true,
          ite_self]
        exact ⟨fun p _ => rfl, fun p b hb => ⟨b, hb⟩, fun p b hb _ => hb⟩
      · cases hrem : remote (remoteKey cfg req) with
        | some rb =>
          simp only [materialize, hv, hhit, hoff, hrem]
          refine ⟨fun p hp => ?_, fun p b hb => ?_, fun p b hb hbne => ?_⟩
          · simp [setFile, hp]
          · by_cases hp : p = candidatePath cfg req
            · exact ⟨rb, by simp [setFile, hp]⟩
            · exact ⟨b, by simp [setFile, hp, hb]⟩
          · by_cases hp : p = candidatePath cfg req
            · exact absurd hhit (by simp [isCacheHit, hp ▸ hb, hbne])
            · simp [setFile, hp, hb]
        | none =>
          simp only [materialize, hv, hhit, hoff, hrem]
          exact ⟨fun p _ => rfl, fun p b hb => ⟨b, hb⟩, fun p b hb _ => hb⟩
  · simp only [materialize, hv]
    exact ⟨fun p _ => rfl, fun p b hb => ⟨b, hb⟩, fun p b hb _ => hb⟩

/-- Claim C9 witness: frame conditions of the concrete scenario run, at a
path other than the candidate and at the stale candidate file. -/
theorem materialize_frame_witness :
    (materialize cfgX remoteX fsStaleX reqX).1 ["other"] = fsStaleX ["other"] ∧
    (∃ c, (materialize cfgX remoteX fsStaleX reqX).1 (candidatePath cfgX reqX)
        = some c) ∧
    (materialize cfgX remoteX fsStaleX reqX).1 (candidatePath cfgX reqX)
      = some [9] :=
  ⟨(materialize_frame cfgX remoteX fsStaleX reqX).1 ["other"] (by decide),
   (materialize_frame cfgX remoteX fsStaleX reqX).2.1 (candidatePath cfgX reqX)
     [9] (by decide),
   (materialize_frame cfgX remoteX fsStaleX reqX).2.2 (candidatePath cfgX reqX)
     [9] (by decide) (by decide)⟩

/-- Claim C5 counterexample: with a remote object whose bytes are empty, the
first call fetches and writes an empty candidate file, which the cache-hit
test (exists and non-empty) rejects, so the second call fetches again
(fetched = true) — the claim's "the second call performs no remote fetch"
fails, although both calls do return the same path. -/
theorem second_call_refetches_empty_object :
    traversalFree reqX = true ∧
    cfgX.offline = false ∧
    remoteEmptyObj (remoteKey cfgX reqX) = some [] ∧
    (materialize cfgX remoteEmptyObj fsNone reqX).2
      = Except.ok ⟨candidatePath cfgX reqX, true⟩ ∧
    (materialize cfgX remoteEmptyObj
        (materialize cfgX remoteEmptyObj fsNone reqX).1 reqX).2
      = Except.ok ⟨candidatePath cfgX reqX, true⟩ :=
  ⟨by decide, by decide, by decide, by decide, by decide⟩

/-- Claim C5 amended: for a traversal-free request whose first materialize
call succeeds, and whose remote object (if any) is non-empty, the second
call returns the same path with no remote fetch (cache hit) and leaves the
filesystem unchanged. -/
theorem materialize_idempotent (cfg : Configuration) (remote : Remote)
    (fs : FS) (req : FSPath) (o : MatOk)
    (hv : traversalFree req = true)
    (h1 : (materialize cfg remote fs req).2 = Except.ok o)
    (hne : ∀ b, remote (remoteKey cfg req) = some b → b ≠ []) :
    materialize cfg remote (materialize cfg remote fs req).1 req
      = ((materialize cfg remote fs req).1, Except.ok ⟨o.path, false⟩) := by
  by_cases hhit : isCacheHit fs (candidatePath cfg req)
  · simp only [materialize, hv, hhit] at h1 ⊢
    simp at h1
    simp [← h1, hhit]
  · by_cases hoff : cfg.offline
    · simp [materialize, hv, hhit, hoff] at h1
    · cases hrem : remote (remoteKey cfg req) with
      | some rb =>
        have hrbne : rb ≠ [] := hne rb hrem
        simp only [materialize, hv, hhit, hoff, hrem] at h1 ⊢
        simp at h1
        have hhit2 : isCacheHit (setFile fs (candidatePath cfg req) rb)
            (candidatePath cfg req) = true := by
          simp [isCacheHit, setFile, hrbne]
        simp [hhit2, ← h1]
      | none =>
        simp [materialize, hv, hhit, hoff, hrem] at h1

/-- Claim C5 amended witness: the concrete scenario — a fetch followed by a
cache hit on the same path. -/
theorem materialize_idempotent_witness :
    materialize cfgX remoteX (materialize cfgX remoteX fsNone reqX).1 reqX
      = ((materialize cfgX remoteX fsNone reqX).1,
         Except.ok ⟨candidatePath cfgX reqX, false⟩) :=
  materialize_idempotent cfgX remoteX fsNone reqX
    ⟨candidatePath cfgX reqX, true⟩ (by decide) (by decide)
    (fun b hb => by
      have hsome : (some [1, 2, 3] : Option Bytes) = some b := hb
      cases hsome
      decide)

/-- Claim C1 counterexample: with offline=false and the remote object
present with bytes [1, 2, 3], a pre-existing non-empty candidate file with
different bytes [9] is treated as authoritative: materialize returns it as a
cache hit, so the returned path's contents differ from the remote object's
bytes. -/
theorem stale_cache_shadows_remote :
    cfgX.offline = false ∧
    traversalFree reqX = true ∧
    remoteX (remoteKey cfgX reqX) = some [1, 2, 3] ∧
    (materialize cfgX remoteX fsStaleX reqX).2
      = Except.ok ⟨candidatePath cfgX reqX, false⟩ ∧
    (materialize cfgX remoteX fsStaleX reqX).1 (candidatePath cfgX reqX)
      = some [9] ∧
    ([9] : Bytes) ≠ [1, 2, 3] :=
  ⟨by decide, by decide, by decide, by decide, by decide, by decide⟩

/-- Claim C1 amended: for a traversal-free request with offline=false and
the remote object present, provided the candidate is not already a
non-empty file with different contents (i.e. it is absent, empty, or holds
exactly the remote bytes), materialize succeeds with the candidate path and
that path then holds exactly the remote object's bytes. -/
theorem materialize_returns_remote_bytes (cfg : Configuration)
    (remote : Remote) (fs : FS) (req : FSPath) (b : Bytes)
    (hv : traversalFree req = true) (hoff : cfg.offline = false)
    (hrem : remote (remoteKey cfg req) = some b)
    (hcoh : isCacheHit fs (candidatePath cfg req) = false ∨
      fs (candidatePath cfg req) = some b) :
    ∃ o : MatOk, (materialize cfg remote fs req).2 = Except.ok o ∧
      o.path = candidatePath cfg req ∧
      (materialize cfg remote fs req).1 o.path = some b := by
  by_cases hhit : isCacheHit fs (candidatePath cfg req)
  · refine ⟨⟨candidatePath cfg req, false⟩, ?_, rfl, ?_⟩
    · simp [materialize, hv, hhit]
    · rcases hcoh with hcoh | hcoh
      · exact absurd hhit (by simp [hcoh])
      · simp [materialize, hv, hhit, hcoh]
  · refine ⟨⟨candidatePath cfg req, true⟩, ?_, rfl, ?_⟩
    · simp [materialize, hv, hhit, hoff, hrem]
    · simp [materialize, hv, hhit, hoff, hrem, setFile]

/-- Claim C1 amended witness: the concrete scenario on an empty local
filesystem — the fetch materializes the remote bytes. -/
theorem materialize_returns_remote_bytes_witness :
    ∃ o : MatOk, (materialize cfgX remoteX fsNone reqX).2 = Except.ok o ∧
      o.path = candidatePath cfgX reqX ∧
      (materialize cfgX remoteX fsNone reqX).1 o.path = some [1, 2, 3] :=
  materialize_returns_remote_bytes cfgX remoteX fsNone reqX [1, 2, 3]
    (by decide) rfl (by decide) (Or.inl (by decide))

/-- Claim C2: fetching bytes `b` into candidate `cand` through a fresh
temporary sibling `tmp` never exposes a partial file at the candidate path:
every state of the transfer has the candidate either absent or holding the
full bytes; every pre-rename state (a crash point) leaves the candidate
absent, so the cache-hit test of a later call fails — no false cache hit;
and the final renamed state agrees at every path with the atomic write used
by `materialize`, so the step-level protocol refines the atomic model. -/
theorem fetch_no_partial_visible (fs : FS) (cand tmp : FSPath) (b : Bytes)
    (hne : tmp ≠ cand) (hfresh : fs tmp = none) (habs : fs cand = none) :
    (∀ s ∈ fetchStates fs cand tmp b, s cand = none ∨ s cand = some b) ∧
    (∀ k, isCacheHit (setFile fs tmp (b.take k)) cand = false) ∧
    (∀ p, setFile (removeFile fs tmp) cand b p = setFile fs cand b p) := by
  have hcand : ∀ v : Bytes, setFile fs tmp v cand = none := by
    intro v
    simp only [setFile]
    rw [if_neg (Ne.symm hne)]
    exact habs
  refine ⟨?_, ?_, ?_⟩
  · intro s hs
    rw [fetchStates] at hs
    rcases List.mem_append.mp hs with hs | hs
    · rcases List.mem_map.mp hs with ⟨k, _, rfl⟩
      exact Or.inl (hcand _)
    · rcases List.mem_singleton.mp hs with rfl
      exact Or.inr (by simp [setFile])
  · intro k
    simp [isCacheHit, hcand]
  · intro p
    by_cases hp : p = cand
    · simp [setFile, hp]
    · by_cases hpt : p = tmp
      · simp [setFile, removeFile, hp, hpt, hfresh]
      · simp [setFile, removeFile, hp, hpt]

/-- Claim C2 witness: a concrete two-byte transfer into `a` via the fresh
sibling temporary `a.part` on the empty filesystem. -/
theorem fetch_no_partial_visible_witness :
    (∀ s ∈ fetchStates fsNone ["a"] ["a.part"] [1, 2],
        s ["a"] = none ∨ s ["a"] = some [1, 2]) ∧
    (∀ k, isCacheHit (setFile fsNone ["a.part"] (([1, 2] : Bytes).take k))
        ["a"] = false) ∧
    (∀ p, setFile (removeFile fsNone ["a.part"]) ["a"] [1, 2] p
        = setFile fsNone ["a"] [1, 2] p) :=
  fetch_no_partial_visible fsNone ["a"] ["a.part"] [1, 2] (by decide) rfl rfl

/-- Concrete fixture: an environment with `PLINDER_MOUNT=/tmp/x` and
`PLINDER_OFFLINE=true`, everything else unset. -/
def envA : Env := fun k =>
  if k = "PLINDER_MOUNT" then some "/tmp/x"
  else if k = "PLINDER_OFFLINE" then some "true"
  else none

/-- Concrete fixture: the empty environment (every variable unset). -/
def envB : Env := fun _ => none

/-- Claim C7: `PLINDER_MOUNT`, when set non-empty, overrides the local root
(and the default is used when it is unset); `PLINDER_OFFLINE` unset or empty
yields offline=false, and any set non-empty (truthy) value yields
offline=true. -/
theorem resolveConfig_env (home : FSPath) (env : Env) :
    (∀ m, env "PLINDER_MOUNT" = some m → m ≠ "" →
        (resolveConfig home env).local_root = pathComponents m) ∧
    (env "PLINDER_MOUNT" = none →
        (resolveConfig home env).local_root = defaultLocalRoot home) ∧
    ((env "PLINDER_OFFLINE" = none ∨ env "PLINDER_OFFLINE" = some "") →
        (resolveConfig home env).offline = false) ∧
    (∀ s, env "PLINDER_OFFLINE" = some s → s ≠ "" →
        (resolveConfig home env).offline = true) := by
  refine ⟨fun m hm hmne => ?_, fun hm => ?_, fun h => ?_, fun s hs hsne => ?_⟩
  · simp [resolveConfig, hm, String.isEmpty_iff, hmne]
  · simp [resolveConfig, hm]
  · rcases h with h | h
    · simp [resolveConfig, envTruthy, h]
    · simp [resolveConfig, envTruthy, h]
      rfl
  · have hf : s.isEmpty = false := by
      cases hb : s.isEmpty
      · rfl
      · exact absurd ((String.isEmpty_iff s).mp hb) hsne
    simp [resolveConfig, envTruthy, hs, hf]

/-- Claim C7 witness: with mount `/tmp/x` and offline `true` the resolved
configuration has local root `tmp/x` and offline=true; with the empty
environment it is online with the default local root. -/
theorem resolveConfig_env_witness :
    (resolveConfig ["home", "u"] envA).local_root = ["tmp", "x"] ∧
    (resolveConfig ["home", "u"] envA).offline = true ∧
    (resolveConfig ["home", "u"] envB).offline = false ∧
    (resolveConfig ["home", "u"] envB).local_root
      = defaultLocalRoot ["home", "u"] :=
  ⟨((resolveConfig_env ["home", "u"] envA).1 "/tmp/x" (by decide)
      (by decide)).trans (by decide),
   (resolveConfig_env ["home", "u"] envA).2.2.2 "true" (by decide) (by decide),
   (resolveConfig_env ["home", "u"] envB).2.2.1 (Or.inl rfl),
   (resolveConfig_env ["home", "u"] envB).2.1 rfl⟩

/-- Claim C8: resolve is a pure function of the environment and the
directory-creation outcome — environments equal at every variable give
equal results — and it returns a ConfigError exactly when creation of the
resolved local root directory fails. -/
theorem resolve_pure (home : FSPath) (env env2 : Env)
    (mkdirOk : FSPath → Bool) :
    ((∀ k, env k = env2 k) →
        resolve home env mkdirOk = resolve home env2 mkdirOk) ∧
    ((∃ e, resolve home env mkdirOk = Except.error e) ↔
        mkdirOk (resolveConfig home env).local_root = false) := by
  constructor
  · intro h
    rw [funext h]
  · constructor
    · rintro ⟨e, he⟩
      cases hb : mkdirOk (resolveConfig home env).local_root
      · rfl
      · simp [resolve, hb] at he
    · intro hmk
      exact ⟨ConfigError.mkdirFailed (resolveConfig home env).local_root,
        by simp [resolve, hmk]⟩

/-- Claim C8 witness: two pointwise-equal empty environments resolve to the
same result, and a failing directory creation yields a ConfigError. -/
theorem resolve_pure_witness :
    resolve ["h"] envB (fun _ => true)
      = resolve ["h"] (fun _ => none) (fun _ => true) ∧
    (∃ e, resolve ["h"] envB (fun _ => false) = Except.error e) :=
  ⟨(resolve_pure ["h"] envB (fun _ => none) (fun _ => true)).1 (fun _ => rfl),
   (resolve_pure ["h"] envB envB (fun _ => false)).2.mpr rfl⟩

/-- Claim C10: with the mount, release and iteration variables unset, the
resolved configuration has release 2024-06, iteration v2 and local root
`home/.local/share/plinder`, so the default dataset directory is
`home/.local/share/plinder/2024-06/v2`. -/
theorem default_configuration (home : FSPath) (env : Env)
    (hm : env "PLINDER_MOUNT" = none) (hr : env "PLINDER_RELEASE" = none)
    (hi : env "PLINDER_ITERATION" = none) :
    (resolveConfig home env).release = "2024-06" ∧
    (resolveConfig home env).iteration = "v2" ∧
    (resolveConfig home env).local_root
      = home ++ [".local", "share", "plinder"] ∧
    (resolveConfig home env).local_root
        ++ [(resolveConfig home env).release,
            (resolveConfig home env).iteration]
      = home ++ [".local", "share", "plinder", "2024-06", "v2"] := by
  refine ⟨?_, ?_, ?_, ?_⟩ <;>
    simp [resolveConfig, defaultLocalRoot, defaultRelease, defaultIteration,
      hm, hr, hi]

/-- Claim C10 witness: the empty environment under home directory
`home/u`. -/
theorem default_configuration_witness :
    (resolveConfig ["home", "u"] envB).release = "2024-06" ∧
    (resolveConfig ["home", "u"] envB).iteration = "v2" ∧
    (resolveConfig ["home", "u"] envB).local_root
      = ["home", "u"] ++ [".local", "share", "plinder"] ∧
    (resolveConfig ["home", "u"] envB).local_root
        ++ [(resolveConfig ["home", "u"] envB).release,
            (resolveConfig ["home", "u"] envB).iteration]
      = ["home", "u"] ++ [".local", "share", "plinder", "2024-06", "v2"] :=
  default_configuration ["home", "u"] envB rfl rfl rfl

end Plinder
